import Mathlib

/-!
Shallow embedding of the `xtask` CI orchestration and version-bump code of
the loco repository (src/xtask/src/ci.rs and src/xtask/src/bump_version.rs).

Filesystem paths are lists of components. The filesystem snapshot is a
`World`: which directories exist, the enumeration-ordered children of each
directory, and the contents of each file. External `cargo` invocations are
an abstract `CheckExec` giving each check's boolean outcome per directory
(the code only inspects `.is_ok()` of each invocation). Console printing
(`println!` and `out::ci_results`) has no effect on any modelled state and
is omitted.
-/

/-- A filesystem path, as its list of components. -/
abbrev FsPath := List String

/-- A filesystem snapshot: existing directories, the immediate children of
each directory in enumeration order, and file contents (`none` = the file
does not exist). -/
structure World where
  dirs : FsPath → Bool
  children : FsPath → List String
  files : FsPath → Option String

/-- Overwrite (or create) one file's contents, as `fs::File::create` plus
`write_all` does. -/
def World.setFile (w : World) (p : FsPath) (c : String) : World :=
  { w with files := fun q => if q = p then some c else w.files q }

/-- Outcomes of the three external cargo invocations, per directory: the
code reduces each spawned command to `.is_ok()`, so each check is a boolean
function of the project path. -/
structure CheckExec where
  fmt_ok : FsPath → Bool
  clippy_ok : FsPath → Bool
  test_ok : FsPath → Bool

/-- `RunResults` from ci.rs: one project's path and its three check
outcomes. -/
structure RunResults where
  path : FsPath
  fmt : Bool
  clippy : Bool
  test : Bool
deriving DecidableEq

/-- `RunResults::is_valid` from ci.rs. -/
def RunResults.is_valid (r : RunResults) : Bool :=
  r.fmt && r.clippy && r.test

/-- `dir.join("Cargo.toml").exists()` from ci.rs: the directory directly
contains the project-descriptor file. -/
def hasCargoToml (w : World) (dir : FsPath) : Bool :=
  (w.files (dir ++ ["Cargo.toml"])).isSome

/-- `run` from ci.rs: `None` when the folder has no Cargo.toml, otherwise
one `RunResults` whose fields record the three check outcomes. -/
def run (ex : CheckExec) (w : World) (dir : FsPath) : Option RunResults :=
  if hasCargoToml w dir then
    some { path := dir, fmt := ex.fmt_ok dir, clippy := ex.clippy_ok dir,
           test := ex.test_ok dir }
  else
    none

/-- The three check kinds, in the vocabulary of ci.rs: `cargo fmt`,
`cargo clippy`, `cargo test`. -/
inductive CheckKind where
  | format
  | lint
  | test
deriving DecidableEq

/-- `cargo_fmt` from ci.rs, instrumented with an invocation log: it spawns
one external command and yields its boolean outcome. -/
def cargo_fmt (ex : CheckExec) (dir : FsPath) (log : List (FsPath × CheckKind)) :
    Bool × List (FsPath × CheckKind) :=
  (ex.fmt_ok dir, log ++ [(dir, CheckKind.format)])

/-- `cargo_clippy` from ci.rs, instrumented with an invocation log. -/
def cargo_clippy (ex : CheckExec) (dir : FsPath) (log : List (FsPath × CheckKind)) :
    Bool × List (FsPath × CheckKind) :=
  (ex.clippy_ok dir, log ++ [(dir, CheckKind.lint)])

/-- `cargo_test` from ci.rs, instrumented with an invocation log. -/
def cargo_test (ex : CheckExec) (dir : FsPath) (log : List (FsPath × CheckKind)) :
    Bool × List (FsPath × CheckKind) :=
  (ex.test_ok dir, log ++ [(dir, CheckKind.test)])

/-- `run` from ci.rs with the external-invocation log made explicit: the
struct literal in the source evaluates its `fmt`, `clippy` and `test`
initializers in order, so the three commands are invoked in that order. -/
def run_logged (ex : CheckExec) (w : World) (dir : FsPath)
    (log : List (FsPath × CheckKind)) :
    Option RunResults × List (FsPath × CheckKind) :=
  if hasCargoToml w dir then
    let fc := cargo_fmt ex dir log
    let cc := cargo_clippy ex dir fc.2
    let tc := cargo_test ex dir cc.2
    (some { path := dir, fmt := fc.1, clippy := cc.1, test := tc.1 }, tc.2)
  else
    (none, log)

/-- The error kinds reaching the embedded code: `NotFound` for a missing
folder, `BumpVersion` (path, package) from bump_version.rs, `Message` for
`Error::Message`, `Panic` for the `expect` in `all_resources`, `IoError`
for a failing file open/read. -/
inductive Err where
  | NotFound : FsPath → Err
  | BumpVersion : FsPath → String → Err
  | Message : String → Err
  | Panic : String → Err
  | IoError : FsPath → Err
deriving DecidableEq

/-- Modelled from the spec: `crate::utils::get_cargo_folders` is not under
src/. Per the spec's Project Discovery contract, it lists the immediate
children of the root folder, keeps those that are directories containing
the project-descriptor file (Cargo.toml) directly inside them, in
filesystem enumeration order, and fails with a `NotFound` error when the
root folder itself does not exist. -/
def get_cargo_folders (w : World) (root_folder : FsPath) : Except Err (List FsPath) :=
  if w.dirs root_folder then
    Except.ok (((w.children root_folder).map (fun c => root_folder ++ [c])).filter
      (fun p => w.dirs p && hasCargoToml w p))
  else
    Except.error (Err.NotFound root_folder)

/-- The `for project in cargo_projects` loop of `inner_folders` in ci.rs:
push `run`'s result when it is `Some`, skip it when it is `None`. -/
def run_projects (ex : CheckExec) (w : World) : List FsPath → List RunResults
  | [] => []
  | project :: rest =>
    match run ex w project with
    | some res => res :: run_projects ex w rest
    | none => run_projects ex w rest

/-- `inner_folders` from ci.rs: discover the cargo folders one level below
the root folder, then run CI on each discovered project. -/
def inner_folders (ex : CheckExec) (w : World) (root_folder : FsPath) :
    Except Err (List RunResults) :=
  match get_cargo_folders w root_folder with
  | Except.error e => Except.error e
  | Except.ok cargo_projects => Except.ok (run_projects ex w cargo_projects)

/-- Modelled from the spec: `crate::utils::FOLDER_EXAMPLES` is not under
src/; the spec names an examples category folder. -/
def FOLDER_EXAMPLES : String := "examples"

/-- Modelled from the spec: `crate::utils::FOLDER_STARTERS` is not under
src/; the spec names a starter-templates category folder. -/
def FOLDER_STARTERS : String := "starters"

/-- Modelled from the spec: `crate::utils::FOLDER_LOCO_CLI` is not under
src/; the spec names a CLI-tooling category folder. -/
def FOLDER_LOCO_CLI : String := "loco-cli"

/-- `all_resources` from ci.rs: the root project first (its `expect` turns
a `None` from `run` into a panic, modelled as `Err.Panic` with the
`expect` message), then the examples, starters and CLI category folders,
each via `inner_folders` with `?` propagation, concatenated in that
order. -/
def all_resources (ex : CheckExec) (w : World) (base_dir : FsPath) :
    Except Err (List RunResults) :=
  match run ex w base_dir with
  | none => Except.error (Err.Panic "loco lib mast be tested")
  | some root_res =>
    match inner_folders ex w (base_dir ++ [FOLDER_EXAMPLES]) with
    | Except.error e => Except.error e
    | Except.ok examples_res =>
      match inner_folders ex w (base_dir ++ [FOLDER_STARTERS]) with
      | Except.error e => Except.error e
      | Except.ok starters_res =>
        match inner_folders ex w (base_dir ++ [FOLDER_LOCO_CLI]) with
        | Except.error e => Except.error e
        | Except.ok cli_res =>
          Except.ok (root_res :: (examples_res ++ starters_res ++ cli_res))

/-- `Path::display` for a component-list path, as used in the gate's error
message. -/
def FsPath.display (p : FsPath) : String :=
  String.intercalate "/" p

/-- The `format!` string of the gate error in `bump` (bump_version.rs),
typo included. -/
def starter_error_message (p : FsPath) : String :=
  "starter " ++ FsPath.display p ++ " ins not passing the CI"

/-- The `for starter in starter_projects` gate loop of `bump` in
bump_version.rs: return the `Error::Message` naming the first starter
whose `is_valid` is false, succeed with `()` when all are valid. -/
def gate : List RunResults → Except Err Unit
  | [] => Except.ok ()
  | starter :: rest =>
    if !starter.is_valid then
      Except.error (Err.Message (starter_error_message starter.path))
    else
      gate rest

/-- The two compiled regular expressions of bump_version.rs, abstracted:
the `regex` crate is an external library, so each pattern's match test and
replacement are uninterpreted functions over manifest contents.
`lib_replace content new_version` stands for
`REPLACE_LOCO_LIB_VERSION_.replace`, `pkg_replace content replace_with`
for `REPLACE_LOCO_PACKAGE_VERSION.replace_all`. -/
structure RegexModel where
  lib_matches : String → Bool
  lib_replace : String → String → String
  pkg_matches : String → Bool
  pkg_replace : String → String → String

/-- `root_package` from bump_version.rs, as a state transformer on the
filesystem snapshot paired with an optional error: open and read the root
Cargo.toml (error when absent), fail with `BumpVersion` when the lib
pattern does not match, otherwise write back the replaced contents.
On error the snapshot is unchanged, since the write happens last. -/
def root_package (rx : RegexModel) (base_dir : FsPath) (new_version : String)
    (w : World) : World × Option Err :=
  let cargo_toml_file := base_dir ++ ["Cargo.toml"]
  match w.files cargo_toml_file with
  | none => (w, some (Err.IoError cargo_toml_file))
  | some content =>
    if !rx.lib_matches content then
      (w, some (Err.BumpVersion cargo_toml_file "root_package"))
    else
      (w.setFile cargo_toml_file (rx.lib_replace content new_version), none)

/-- `replace_loco_rs_version` from bump_version.rs: same shape as
`root_package`, with the package pattern and `replace_all` against the
`replace_with` string. -/
def replace_loco_rs_version (rx : RegexModel) (path : FsPath)
    (replace_with : String) (w : World) : World × Option Err :=
  let cargo_toml_file := path ++ ["Cargo.toml"]
  match w.files cargo_toml_file with
  | none => (w, some (Err.IoError cargo_toml_file))
  | some content =>
    if !rx.pkg_matches content then
      (w, some (Err.BumpVersion cargo_toml_file "loco-rs"))
    else
      (w.setFile cargo_toml_file (rx.pkg_replace content replace_with), none)

/-- The `for starter_project in starter_projects` loop of
`update_starters` in bump_version.rs: rewrite each starter's manifest,
then, when the starter has a `migration` folder, rewrite that folder's
manifest with `replace_migrator.unwrap_or(replace_with)`; the first error
aborts the loop, keeping all writes already performed. -/
def update_starters_loop (rx : RegexModel) (replace_with : String)
    (replace_migrator : Option String) :
    List FsPath → World → World × Option Err
  | [], w => (w, none)
  | starter_project :: rest, w =>
    match replace_loco_rs_version rx starter_project replace_with w with
    | (w1, some e) => (w1, some e)
    | (w1, none) =>
      match (if w1.dirs (starter_project ++ ["migration"]) then
               replace_loco_rs_version rx (starter_project ++ ["migration"])
                 (replace_migrator.getD replace_with) w1
             else (w1, none)) with
      | (w2, some e) => (w2, some e)
      | (w2, none) => update_starters_loop rx replace_with replace_migrator rest w2

/-- `update_starters` from bump_version.rs: discover the starter folders,
then run the rewrite loop over them. -/
def update_starters (rx : RegexModel) (base_dir : FsPath) (replace_with : String)
    (replace_migrator : Option String) (w : World) : World × Option Err :=
  match get_cargo_folders w (base_dir ++ [FOLDER_STARTERS]) with
  | Except.error e => (w, some e)
  | Except.ok starter_projects =>
    update_starters_loop rx replace_with replace_migrator starter_projects w

/-- The literal `"loco-rs = \x7b path = \"../../\""` replacement of the
first `update_starters` call in `bump`. -/
def PATH_REPLACE : String := "loco-rs = \x7b path = \"../../\""

/-- The literal `"loco-rs = \x7b path = \"../../../\""` migrator
replacement of the first `update_starters` call in `bump`. -/
def MIGRATOR_PATH_REPLACE : String := "loco-rs = \x7b path = \"../../../\""

/-- The `format!("loco-rs = \x7b\x7b version = \"...\"")` replacement of the
second `update_starters` call in `bump`. -/
def version_replace (new_version : String) : String :=
  "loco-rs = \x7b version = \"" ++ new_version ++ "\""

/-- `bump` from bump_version.rs: bump the root package, apply the
path-based starter substitution, run CI over the starters folder, gate on
every starter being valid, then apply the version-based starter
substitution. Each `?` or early `return Err` propagates the error while
keeping every filesystem write already performed. -/
def bump (rx : RegexModel) (ex : CheckExec) (base_dir : FsPath)
    (new_version : String) (w : World) : World × Option Err :=
  match root_package rx base_dir new_version w with
  | (w1, some e) => (w1, some e)
  | (w1, none) =>
    match update_starters rx base_dir PATH_REPLACE (some MIGRATOR_PATH_REPLACE) w1 with
    | (w2, some e) => (w2, some e)
    | (w2, none) =>
      match inner_folders ex w2 (base_dir ++ [FOLDER_STARTERS]) with
      | Except.error e => (w2, some e)
      | Except.ok starter_projects =>
        match gate starter_projects with
        | Except.error e => (w2, some e)
        | Except.ok _ =>
          match update_starters rx base_dir (version_replace new_version) none w2 with
          | (w3, some e) => (w3, some e)
          | (w3, none) => (w3, none)

/-! Helper lemmas shared by the claim theorems. -/

/-- The gate succeeds exactly when every element is valid. -/
theorem gate_ok_iff (rs : List RunResults) :
    gate rs = Except.ok () ↔ ∀ r ∈ rs, r.is_valid = true := by
  induction rs with
  | nil => simp [gate]
  | cons r rest ih =>
    by_cases hr : r.is_valid
    · simp [gate, hr, ih]
    · simp only [Bool.not_eq_true] at hr
      simp [gate, hr]

/-- The gate fails exactly when some element is invalid. -/
theorem gate_error_iff (rs : List RunResults) :
    (∃ e, gate rs = Except.error e) ↔ ∃ r ∈ rs, r.is_valid = false := by
  induction rs with
  | nil => simp [gate]
  | cons r rest ih =>
    by_cases hr : r.is_valid
    · simp [gate, hr, ih, Bool.not_eq_true]
    · simp only [Bool.not_eq_true] at hr
      simp [gate, hr]

/-- On failure the gate's error names the first invalid element. -/
theorem gate_find_error (rs : List RunResults) (r : RunResults)
    (h : rs.find? (fun x => !x.is_valid) = some r) :
    gate rs = Except.error (Err.Message (starter_error_message r.path)) := by
  induction rs with
  | nil => simp at h
  | cons x rest ih =>
    by_cases hx : x.is_valid
    · rw [List.find?_cons_of_neg] at h
      · simpa [gate, hx] using ih h
      · simp [hx]
    · rw [List.find?_cons_of_pos] at h
      · cases h
        simp only [Bool.not_eq_true] at hx
        simp [gate, hx]
      · simp [Bool.not_eq_true] at hx ⊢
        exact hx

/-- A `Some` result of `run` was produced under the descriptor test and
records its own directory as `path`. -/
theorem run_eq_some (ex : CheckExec) (w : World) (p : FsPath) (res : RunResults)
    (h : run ex w p = some res) :
    hasCargoToml w p = true ∧ res.path = p := by
  by_cases hc : hasCargoToml w p
  · refine ⟨hc, ?_⟩
    simp only [run, hc, if_true, Option.some.injEq] at h
    rw [← h]
  · simp [run, hc] at h

/-- Every element of `run_projects` is `run`'s own output on the element's
recorded path. -/
theorem run_projects_mem (ex : CheckExec) (w : World) (ps : List FsPath)
    (r : RunResults) (h : r ∈ run_projects ex w ps) :
    hasCargoToml w r.path = true ∧ run ex w r.path = some r := by
  induction ps with
  | nil => simp [run_projects] at h
  | cons p rest ih =>
    simp only [run_projects] at h
    cases hrun : run ex w p with
    | none =>
      rw [hrun] at h
      exact ih h
    | some res =>
      rw [hrun] at h
      rcases List.mem_cons.mp h with h1 | h2
      · subst h1
        obtain ⟨hc, hp⟩ := run_eq_some ex w p r hrun
        rw [hp]
        exact ⟨hc, hrun⟩
      · exact ih h2

/-! Claim theorems. -/

/-- C1: the derived validity verdict of a checked project equals the
conjunction of the three per-check booleans: `is_valid` is true if and
only if `fmt`, `clippy` and `test` are all true, for every combination of
the three booleans. -/
theorem is_valid_iff_all_checks (r : RunResults) :
    r.is_valid = true ↔ (r.fmt = true ∧ r.clippy = true ∧ r.test = true) := by
  simp [RunResults.is_valid, Bool.and_eq_true, and_assoc]

/-- C2: when a path does not directly contain the project-descriptor file
Cargo.toml, `run` returns `None` (not applicable), never a `RunResults`
with failed checks. -/
theorem run_none_of_no_descriptor (ex : CheckExec) (w : World) (dir : FsPath)
    (h : hasCargoToml w dir = false) :
    run ex w dir = none := by
  simp [run, h]

/-- C3: when a path contains the project-descriptor file, `run` invokes
exactly three external checks, in the fixed order format, lint, test, for
every check executor — so all three run even when an earlier check
fails — and each outcome is recorded in the corresponding field of the
result. -/
theorem run_logged_three_checks (ex : CheckExec) (w : World) (dir : FsPath)
    (h : hasCargoToml w dir = true) :
    run_logged ex w dir [] =
      (some { path := dir, fmt := ex.fmt_ok dir, clippy := ex.clippy_ok dir,
              test := ex.test_ok dir },
       [(dir, CheckKind.format), (dir, CheckKind.lint), (dir, CheckKind.test)]) := by
  simp [run_logged, cargo_fmt, cargo_clippy, cargo_test, h]

/-- C4: the gate fails exactly when some element of the run set is
invalid; on failure the error message names the path of the first invalid
element in run-set order; when every element is valid the gate succeeds
with the unit value. -/
theorem gate_spec (rs : List RunResults) :
    ((∃ e, gate rs = Except.error e) ↔ ∃ r ∈ rs, r.is_valid = false) ∧
    (∀ r, rs.find? (fun x => !x.is_valid) = some r →
      gate rs = Except.error (Err.Message (starter_error_message r.path))) ∧
    ((∀ r ∈ rs, r.is_valid = true) → gate rs = Except.ok ()) :=
  ⟨gate_error_iff rs, fun r h => gate_find_error rs r h,
   fun h => (gate_ok_iff rs).mpr h⟩

/-- C5: every element of a successful `inner_folders` run set corresponds
to a sub-folder holding the project-descriptor file on which the checks
were actually run: no descriptor-less sub-folder is ever represented. -/
theorem inner_folders_elements (ex : CheckExec) (w : World) (root_folder : FsPath)
    (rs : List RunResults) (h : inner_folders ex w root_folder = Except.ok rs) :
    ∀ r ∈ rs, hasCargoToml w r.path = true ∧ run ex w r.path = some r := by
  intro r hr
  unfold inner_folders at h
  cases hg : get_cargo_folders w root_folder with
  | error e => rw [hg] at h; cases h
  | ok cargo_projects =>
    rw [hg] at h
    cases h
    exact run_projects_mem ex w cargo_projects r hr

/-- C6: a successful `all_resources` run set is the concatenation, in this
fixed order, of the single root-project result, then the results of the
examples folder, then the starters folder, then the CLI-tooling folder. -/
theorem all_resources_order (ex : CheckExec) (w : World) (base_dir : FsPath)
    (rs : List RunResults) (h : all_resources ex w base_dir = Except.ok rs) :
    ∃ root_res examples_res starters_res cli_res,
      run ex w base_dir = some root_res ∧
      inner_folders ex w (base_dir ++ [FOLDER_EXAMPLES]) = Except.ok examples_res ∧
      inner_folders ex w (base_dir ++ [FOLDER_STARTERS]) = Except.ok starters_res ∧
      inner_folders ex w (base_dir ++ [FOLDER_LOCO_CLI]) = Except.ok cli_res ∧
      rs = root_res :: (examples_res ++ starters_res ++ cli_res) := by
  unfold all_resources at h
  cases h0 : run ex w base_dir with
  | none => rw [h0] at h; cases h
  | some root_res =>
    rw [h0] at h
    cases h1 : inner_folders ex w (base_dir ++ [FOLDER_EXAMPLES]) with
    | error e => rw [h1] at h; cases h
    | ok examples_res =>
      rw [h1] at h
      cases h2 : inner_folders ex w (base_dir ++ [FOLDER_STARTERS]) with
      | error e => rw [h2] at h; cases h
      | ok starters_res =>
        rw [h2] at h
        cases h3 : inner_folders ex w (base_dir ++ [FOLDER_LOCO_CLI]) with
        | error e => rw [h3] at h; cases h
        | ok cli_res =>
          rw [h3] at h
          cases h
          exact ⟨root_res, examples_res, starters_res, cli_res,
            rfl, rfl, rfl, rfl, rfl⟩

/-- C7: in `all_resources`, a root path that is not a recognized project
aborts the whole operation with the `expect` panic; by contrast, a
category whose folder exists always yields a successful result list for
every check executor — per-project check failures are recorded as false
booleans, never raised as errors. -/
theorem root_fatal_category_failures_captured (ex : CheckExec) (w : World)
    (base_dir root_folder : FsPath) :
    (run ex w base_dir = none →
      all_resources ex w base_dir = Except.error (Err.Panic "loco lib mast be tested")) ∧
    (w.dirs root_folder = true →
      ∃ rs, inner_folders ex w root_folder = Except.ok rs) := by
  constructor
  · intro h
    unfold all_resources
    rw [h]
  · intro h
    refine ⟨run_projects ex w (((w.children root_folder).map
      (fun c => root_folder ++ [c])).filter
      (fun p => w.dirs p && hasCargoToml w p)), ?_⟩
    unfold inner_folders get_cargo_folders
    rw [h]
    simp

/-- C8: when a category root folder does not exist, `inner_folders` fails
with a `NotFound` error carrying that folder, producing no results at
all. -/
theorem inner_folders_notfound (ex : CheckExec) (w : World) (root_folder : FsPath)
    (h : w.dirs root_folder = false) :
    inner_folders ex w root_folder = Except.error (Err.NotFound root_folder) := by
  unfold inner_folders get_cargo_folders
  rw [h]
  simp

/-- C9: `all_resources` is deterministic: two invocations over filesystem
snapshots that agree pointwise and check executors that agree pointwise
produce the same result list — identical element ordering and identical
field values. -/
theorem all_resources_deterministic (ex1 ex2 : CheckExec) (w1 w2 : World)
    (base_dir : FsPath)
    (hd : ∀ p, w1.dirs p = w2.dirs p) (hc : ∀ p, w1.children p = w2.children p)
    (hf : ∀ p, w1.files p = w2.files p)
    (he1 : ∀ p, ex1.fmt_ok p = ex2.fmt_ok p)
    (he2 : ∀ p, ex1.clippy_ok p = ex2.clippy_ok p)
    (he3 : ∀ p, ex1.test_ok p = ex2.test_ok p) :
    all_resources ex1 w1 base_dir = all_resources ex2 w2 base_dir := by
  obtain ⟨d1, c1, f1⟩ := w1
  obtain ⟨d2, c2, f2⟩ := w2
  obtain ⟨a1, b1, t1⟩ := ex1
  obtain ⟨a2, b2, t2⟩ := ex2
  have hd' : d1 = d2 := funext hd
  have hc' : c1 = c2 := funext hc
  have hf' : f1 = f2 := funext hf
  have ha' : a1 = a2 := funext he1
  have hb' : b1 = b2 := funext he2
  have ht' : t1 = t2 := funext he3
  subst hd' hc' hf' ha' hb' ht'
  rfl

/-- C10: the version-bump workflow is not atomic on gate failure: when the
starters CI gate rejects an invalid starter, `bump` returns the gate error
together with exactly the filesystem state produced by the root-manifest
rewrite and the first (path-based) starter substitution — those writes are
kept, not rolled back — and the second (version-based) substitution phase
is never applied. -/
theorem bump_not_atomic (rx : RegexModel) (ex : CheckExec) (base_dir : FsPath)
    (new_version : String) (w w1 w2 : World) (rs : List RunResults) (r : RunResults)
    (h1 : root_package rx base_dir new_version w = (w1, none))
    (h2 : update_starters rx base_dir PATH_REPLACE (some MIGRATOR_PATH_REPLACE) w1 =
      (w2, none))
    (h3 : inner_folders ex w2 (base_dir ++ [FOLDER_STARTERS]) = Except.ok rs)
    (h4 : rs.find? (fun x => !x.is_valid) = some r) :
    bump rx ex base_dir new_version w =
      (w2, some (Err.Message (starter_error_message r.path))) := by
  have hg := gate_find_error rs r h4
  unfold bump
  simp only [h1, h2, h3, hg]

/-! Concrete fixtures: a small filesystem snapshot with a root project, an
empty examples folder, a starters folder holding projects `a` and `b`, an
empty CLI folder, and a check executor under which only `b` fails (its
format check). -/

/-- Fixture directories. -/
def sampleDirs : FsPath → Bool := fun p =>
  decide (p ∈ ([["base"], ["base", "examples"], ["base", "starters"],
    ["base", "loco-cli"], ["base", "starters", "a"],
    ["base", "starters", "b"]] : List FsPath))

/-- Fixture directory children. -/
def sampleChildren : FsPath → List String := fun p =>
  if p = (["base", "starters"] : FsPath) then ["a", "b"] else []

/-- Fixture file contents: three manifests. -/
def sampleFiles : FsPath → Option String := fun p =>
  if p ∈ ([["base", "Cargo.toml"], ["base", "starters", "a", "Cargo.toml"],
    ["base", "starters", "b", "Cargo.toml"]] : List FsPath) then
    some "manifest"
  else
    none

/-- Fixture filesystem snapshot. -/
def sampleWorld : World :=
  { dirs := sampleDirs, children := sampleChildren, files := sampleFiles }

/-- Fixture check executor: the format check fails exactly on starter
`b`. -/
def sampleExec : CheckExec :=
  { fmt_ok := fun p => decide (p ≠ (["base", "starters", "b"] : FsPath)),
    clippy_ok := fun _ => true,
    test_ok := fun _ => true }

/-- Fixture regex behaviour: both patterns match every manifest; the lib
replacement prepends the version, the package replacement substitutes the
whole contents. -/
def sampleRx : RegexModel :=
  { lib_matches := fun _ => true,
    lib_replace := fun content new_version => new_version ++ ":" ++ content,
    pkg_matches := fun _ => true,
    pkg_replace := fun _ replace_with => replace_with }

/-- Expected result for the fixture root project. -/
def rootRes : RunResults :=
  { path := ["base"], fmt := true, clippy := true, test := true }

/-- Expected result for fixture starter `a`: all checks pass. -/
def validA : RunResults :=
  { path := ["base", "starters", "a"], fmt := true, clippy := true, test := true }

/-- Expected result for fixture starter `b`: its format check fails. -/
def invalidB : RunResults :=
  { path := ["base", "starters", "b"], fmt := false, clippy := true, test := true }

/-- Fixture snapshot after the root-manifest rewrite of `bump`. -/
def bumpW1 : World :=
  (root_package sampleRx ["base"] "0.9.9" sampleWorld).1

/-- Fixture snapshot after the first (path-based) starter substitution of
`bump`. -/
def bumpW2 : World :=
  (update_starters sampleRx ["base"] PATH_REPLACE (some MIGRATOR_PATH_REPLACE) bumpW1).1

/-! Witnesses. -/

/-- Witness for C2 at a concrete folder with no Cargo.toml. -/
theorem run_none_of_no_descriptor_witness :
    run sampleExec sampleWorld ["base", "examples"] = none :=
  run_none_of_no_descriptor sampleExec sampleWorld ["base", "examples"] (by rfl)

/-- Witness for C3 at a concrete project whose first check fails: the log
still records the three checks in order and the failure lands in `fmt`. -/
theorem run_logged_three_checks_witness :
    run_logged sampleExec sampleWorld ["base", "starters", "b"] [] =
      (some invalidB,
       [(["base", "starters", "b"], CheckKind.format),
        (["base", "starters", "b"], CheckKind.lint),
        (["base", "starters", "b"], CheckKind.test)]) :=
  (run_logged_three_checks sampleExec sampleWorld ["base", "starters", "b"]
    (by rfl)).trans (by rfl)

/-- Witness for C4 on a concrete run set whose second element is the first
invalid one. -/
theorem gate_spec_witness :
    gate [validA, invalidB] =
      Except.error (Err.Message (starter_error_message invalidB.path)) :=
  (gate_spec [validA, invalidB]).2.1 invalidB (by decide)

/-- Witness for C5 on a concrete starters folder. -/
theorem inner_folders_elements_witness :
    hasCargoToml sampleWorld validA.path = true ∧
    run sampleExec sampleWorld validA.path = some validA :=
  inner_folders_elements sampleExec sampleWorld ["base", "starters"]
    [validA, invalidB] (by rfl) validA (by simp)

/-- Witness for C6 on the concrete fixture base directory. -/
theorem all_resources_order_witness :
    ∃ root_res examples_res starters_res cli_res,
      run sampleExec sampleWorld ["base"] = some root_res ∧
      inner_folders sampleExec sampleWorld (["base"] ++ [FOLDER_EXAMPLES]) =
        Except.ok examples_res ∧
      inner_folders sampleExec sampleWorld (["base"] ++ [FOLDER_STARTERS]) =
        Except.ok starters_res ∧
      inner_folders sampleExec sampleWorld (["base"] ++ [FOLDER_LOCO_CLI]) =
        Except.ok cli_res ∧
      [rootRes, validA, invalidB] =
        root_res :: (examples_res ++ starters_res ++ cli_res) :=
  all_resources_order sampleExec sampleWorld ["base"] [rootRes, validA, invalidB]
    (by rfl)

/-- Witness for C7: a base directory that is not a project aborts
`all_resources` with the panic, while the existing starters folder yields
a successful list. -/
theorem root_fatal_category_failures_captured_witness :
    all_resources sampleExec sampleWorld ["nothing"] =
      Except.error (Err.Panic "loco lib mast be tested") ∧
    (∃ rs, inner_folders sampleExec sampleWorld ["base", "starters"] = Except.ok rs) :=
  ⟨(root_fatal_category_failures_captured sampleExec sampleWorld ["nothing"]
      ["base", "starters"]).1 (by rfl),
   (root_fatal_category_failures_captured sampleExec sampleWorld ["nothing"]
      ["base", "starters"]).2 (by rfl)⟩

/-- Witness for C8 at a concrete missing category folder. -/
theorem inner_folders_notfound_witness :
    inner_folders sampleExec sampleWorld ["missing"] =
      Except.error (Err.NotFound ["missing"]) :=
  inner_folders_notfound sampleExec sampleWorld ["missing"] (by rfl)

/-- Witness for C9 at concrete, pointwise-equal snapshots and
executors. -/
theorem all_resources_deterministic_witness :
    all_resources sampleExec sampleWorld ["base"] =
      all_resources sampleExec sampleWorld ["base"] :=
  all_resources_deterministic sampleExec sampleExec sampleWorld sampleWorld ["base"]
    (fun _ => rfl) (fun _ => rfl) (fun _ => rfl)
    (fun _ => rfl) (fun _ => rfl) (fun _ => rfl)

/-- Witness for C10 on the concrete fixture: `bump` stops at the gate with
starter `b`'s error, returning exactly the snapshot produced by the root
rewrite and the path-based substitution. -/
theorem bump_not_atomic_witness :
    bump sampleRx sampleExec ["base"] "0.9.9" sampleWorld =
      (bumpW2, some (Err.Message (starter_error_message invalidB.path))) :=
  bump_not_atomic sampleRx sampleExec ["base"] "0.9.9" sampleWorld bumpW1 bumpW2
    [validA, invalidB] invalidB (by rfl) (by rfl) (by rfl) (by decide)
